import Mathlib

/-!
Shallow embedding of the GraphAr pyspark v2 schema-model serialization
subsystem (`graphar_pyspark/v2/models.py` and `graphar_pyspark/v2/helpers.py`).

Modelling conventions:
* YAML values reachable by `yaml.safe_load` / `yaml.safe_dump` of the model
  field mappings are the inductive `Yaml` (strings, ints, bools, null,
  sequences, string-keyed mappings).
* The enumerations `GarType`, `FileType` and `AdjListType` are `str`-backed
  Python enums: a validated member IS its literal string.  They are embedded
  as `String` fields together with the membership predicates over the closed
  literal sets (`garTypeValues`, …); pydantic validation of an enum field is
  membership of the string in the set.  Field defaults are NOT validated by
  pydantic (`validate_default` is off), which the decoders reproduce: an
  absent key takes the declared default verbatim.
* `model.validate(pydict)` is the family `decodeProperty` … `decodeGraphInfo`:
  each declared field is looked up by name, a present value must validate,
  a missing key falls back to the declared default, unknown keys are ignored.
  All validation failures are `SchemaErr.schemaValidationError` (pydantic's
  `ValidationError`).
* `model.model_dump(mode="python")` is the family `encodeProperty` …
  `encodeGraphInfo`: the mapping of all field names to field values.
* The python field name `prefix` is a reserved word here and is embedded as
  `prefix_`.
-/

namespace GraphArV2

/-- YAML values produced by `yaml.safe_load` on the documents this subsystem
handles: scalars (string, int, bool, null), sequences and string-keyed
mappings. -/
inductive Yaml where
  | s : String → Yaml
  | i : Int → Yaml
  | b : Bool → Yaml
  | null : Yaml
  | seq : List Yaml → Yaml
  | dict : List (String × Yaml) → Yaml

/-- The error taxonomy of the subsystem (spec section 7): malformed YAML,
a value failing model validation, a read from a location with no records,
and a storage/backend failure. -/
inductive SchemaErr where
  | parseError
  | schemaValidationError
  | notFoundError
  | storageError
deriving DecidableEq

/-- Key lookup in a YAML mapping, as pydantic looks fields up by name in the
dict produced by `yaml.safe_load`.  Unknown keys are simply never looked up
(ignored, forward compatibility). -/
def lookupField : List (String × Yaml) → String → Option Yaml
  | [], _ => none
  | (k, v) :: t, key => if k == key then some v else lookupField t key

/-- The closed literal set of the `str`-enum `GarType`
(models.py lines 31-41). -/
def garTypeValues : List String :=
  ["bool", "int32", "int64", "float", "double", "string", "list"]

/-- The closed literal set of the `str`-enum `FileType` (models.py 43-48). -/
def fileTypeValues : List String := ["csv", "parquet", "orc"]

/-- The closed literal set of the `str`-enum `AdjListType` (models.py 51-57). -/
def adjListTypeValues : List String :=
  ["unordered_by_source", "unordered_by_dest", "ordered_by_source", "ordered_by_dest"]

/-- Membership in the `GarType` literal set. -/
def isGarType (v : String) : Bool := garTypeValues.contains v

/-- Membership in the `FileType` literal set. -/
def isFileType (v : String) : Bool := fileTypeValues.contains v

/-- Membership in the `AdjListType` literal set. -/
def isAdjListType (v : String) : Bool := adjListTypeValues.contains v

/-- `Property` (models.py 60-66).  `data_type` is declared `GarType` but the
declared default is the plain string `""`; the runtime domain of the field is
`str` (the enum is a `str` subclass), so it is embedded as `String`. -/
structure Property where
  name : String := ""
  data_type : String := ""
  is_primary : Bool := false
  is_nullable : Option Bool := none
deriving DecidableEq

/-- `PropertyGroup` (models.py 69-74); `prefix_` embeds the field `prefix`. -/
structure PropertyGroup where
  prefix_ : String := ""
  file_type : String := "parquet"
  properties : List Property := []
deriving DecidableEq

/-- `AdjList` (models.py 77-83). -/
structure AdjList where
  ordered : Bool := false
  aligned_by : String := "unordered_by_source"
  prefix_ : String := ""
  file_type : String := "parquet"
deriving DecidableEq

/-- `VertexInfo` (models.py 109-116). -/
structure VertexInfo where
  label : String := ""
  chunk_size : Int := 0
  prefix_ : String := ""
  property_groups : List PropertyGroup := []
  version : String := ""
deriving DecidableEq

/-- `EdgeInfo` (models.py 119-132). -/
structure EdgeInfo where
  src_label : String := ""
  edge_label : String := ""
  dst_label : String := ""
  chunk_size : Int := 0
  src_chunk_size : Int := 0
  dst_chunk_size : Int := 0
  directed : Bool := false
  prefix_ : String := ""
  adj_lists : List AdjList := []
  property_groups : List PropertyGroup := []
  version : String := ""
deriving DecidableEq

/-- `GraphInfo` (models.py 135-142). -/
structure GraphInfo where
  name : String := ""
  prefix_ : String := ""
  vertices : List String := []
  edges : List String := []
  version : String := ""
deriving DecidableEq

instance {ε α : Type} [DecidableEq ε] [DecidableEq α] : DecidableEq (Except ε α) := fun x y =>
  match x, y with
  | Except.ok a, Except.ok b => decidable_of_iff (a = b) (by simp)
  | Except.error a, Except.error b => decidable_of_iff (a = b) (by simp)
  | Except.ok _, Except.error _ => isFalse (by simp)
  | Except.error _, Except.ok _ => isFalse (by simp)

/-- pydantic validation of one `str` field: absent key takes the (unvalidated)
default, a present value must be a string. -/
def decodeStrField : Option Yaml → String → Except SchemaErr String
  | none, d => Except.ok d
  | some (Yaml.s v), _ => Except.ok v
  | some _, _ => Except.error SchemaErr.schemaValidationError

/-- pydantic validation of one `bool` field. -/
def decodeBoolField : Option Yaml → Bool → Except SchemaErr Bool
  | none, d => Except.ok d
  | some (Yaml.b v), _ => Except.ok v
  | some _, _ => Except.error SchemaErr.schemaValidationError

/-- pydantic validation of one `int` field.  No sign or range constraint is
declared on any int field in models.py. -/
def decodeIntField : Option Yaml → Int → Except SchemaErr Int
  | none, d => Except.ok d
  | some (Yaml.i v), _ => Except.ok v
  | some _, _ => Except.error SchemaErr.schemaValidationError

/-- pydantic validation of one `Optional[bool]` field: absent key keeps the
default, an explicit YAML `null` is `None`, a bool stays a bool (tri-state). -/
def decodeOptBoolField : Option Yaml → Option Bool → Except SchemaErr (Option Bool)
  | none, d => Except.ok d
  | some Yaml.null, _ => Except.ok none
  | some (Yaml.b v), _ => Except.ok (some v)
  | some _, _ => Except.error SchemaErr.schemaValidationError

/-- pydantic validation of one `str`-enum field over the closed literal set
`vals`: absent key takes the declared default verbatim (defaults are not
validated); a present value must be a string in `vals`. -/
def decodeEnumField (vals : List String) : Option Yaml → String → Except SchemaErr String
  | none, d => Except.ok d
  | some (Yaml.s v), _ =>
      if vals.contains v then Except.ok v else Except.error SchemaErr.schemaValidationError
  | some _, _ => Except.error SchemaErr.schemaValidationError

/-- pydantic validation of every element of a YAML sequence in order. -/
def decodeAll (dec : Yaml → Except SchemaErr α) : List Yaml → Except SchemaErr (List α)
  | [] => Except.ok []
  | y :: t => do
      let a ← dec y
      let r ← decodeAll dec t
      Except.ok (a :: r)

/-- pydantic validation of a `list[...]` field: absent key takes the default
`[]`, a present value must be a YAML sequence of valid elements. -/
def decodeListField (dec : Yaml → Except SchemaErr α) : Option Yaml → Except SchemaErr (List α)
  | none => Except.ok []
  | some (Yaml.seq l) => decodeAll dec l
  | some _ => Except.error SchemaErr.schemaValidationError

/-- One YAML sequence element that must be a string (`list[str]` fields). -/
def decodeStrItem : Yaml → Except SchemaErr String
  | Yaml.s v => Except.ok v
  | _ => Except.error SchemaErr.schemaValidationError

/-- `Property.validate(pydict)`. -/
def decodeProperty : Yaml → Except SchemaErr Property
  | Yaml.dict m => do
      let name ← decodeStrField (lookupField m "name") ""
      let dt ← decodeEnumField garTypeValues (lookupField m "data_type") ""
      let prim ← decodeBoolField (lookupField m "is_primary") false
      let nul ← decodeOptBoolField (lookupField m "is_nullable") none
      Except.ok { name := name, data_type := dt, is_primary := prim, is_nullable := nul }
  | _ => Except.error SchemaErr.schemaValidationError

/-- `PropertyGroup.validate(pydict)`. -/
def decodePropertyGroup : Yaml → Except SchemaErr PropertyGroup
  | Yaml.dict m => do
      let pfx ← decodeStrField (lookupField m "prefix") ""
      let ft ← decodeEnumField fileTypeValues (lookupField m "file_type") "parquet"
      let props ← decodeListField decodeProperty (lookupField m "properties")
      Except.ok { prefix_ := pfx, file_type := ft, properties := props }
  | _ => Except.error SchemaErr.schemaValidationError

/-- `AdjList.validate(pydict)`. -/
def decodeAdjList : Yaml → Except SchemaErr AdjList
  | Yaml.dict m => do
      let ord ← decodeBoolField (lookupField m "ordered") false
      let al ← decodeEnumField adjListTypeValues (lookupField m "aligned_by") "unordered_by_source"
      let pfx ← decodeStrField (lookupField m "prefix") ""
      let ft ← decodeEnumField fileTypeValues (lookupField m "file_type") "parquet"
      Except.ok { ordered := ord, aligned_by := al, prefix_ := pfx, file_type := ft }
  | _ => Except.error SchemaErr.schemaValidationError

/-- `VertexInfo.validate(pydict)`. -/
def decodeVertexInfo : Yaml → Except SchemaErr VertexInfo
  | Yaml.dict m => do
      let label ← decodeStrField (lookupField m "label") ""
      let cs ← decodeIntField (lookupField m "chunk_size") 0
      let pfx ← decodeStrField (lookupField m "prefix") ""
      let pgs ← decodeListField decodePropertyGroup (lookupField m "property_groups")
      let version ← decodeStrField (lookupField m "version") ""
      Except.ok { label := label, chunk_size := cs, prefix_ := pfx,
                  property_groups := pgs, version := version }
  | _ => Except.error SchemaErr.schemaValidationError

/-- `EdgeInfo.validate(pydict)`. -/
def decodeEdgeInfo : Yaml → Except SchemaErr EdgeInfo
  | Yaml.dict m => do
      let src ← decodeStrField (lookupField m "src_label") ""
      let el ← decodeStrField (lookupField m "edge_label") ""
      let dst ← decodeStrField (lookupField m "dst_label") ""
      let cs ← decodeIntField (lookupField m "chunk_size") 0
      let scs ← decodeIntField (lookupField m "src_chunk_size") 0
      let dcs ← decodeIntField (lookupField m "dst_chunk_size") 0
      let dir ← decodeBoolField (lookupField m "directed") false
      let pfx ← decodeStrField (lookupField m "prefix") ""
      let als ← decodeListField decodeAdjList (lookupField m "adj_lists")
      let pgs ← decodeListField decodePropertyGroup (lookupField m "property_groups")
      let version ← decodeStrField (lookupField m "version") ""
      Except.ok { src_label := src, edge_label := el, dst_label := dst,
                  chunk_size := cs, src_chunk_size := scs, dst_chunk_size := dcs,
                  directed := dir, prefix_ := pfx, adj_lists := als,
                  property_groups := pgs, version := version }
  | _ => Except.error SchemaErr.schemaValidationError

/-- `GraphInfo.validate(pydict)`. -/
def decodeGraphInfo : Yaml → Except SchemaErr GraphInfo
  | Yaml.dict m => do
      let name ← decodeStrField (lookupField m "name") ""
      let pfx ← decodeStrField (lookupField m "prefix") ""
      let vs ← decodeListField decodeStrItem (lookupField m "vertices")
      let es ← decodeListField decodeStrItem (lookupField m "edges")
      let version ← decodeStrField (lookupField m "version") ""
      Except.ok { name := name, prefix_ := pfx, vertices := vs, edges := es,
                  version := version }
  | _ => Except.error SchemaErr.schemaValidationError

/-- The YAML value of an `Optional[bool]` field under `model_dump`:
`None` dumps as YAML null. -/
def yamlOfOptBool : Option Bool → Yaml
  | none => Yaml.null
  | some v => Yaml.b v

/-- `Property.model_dump(mode="python")`: the mapping of all field names to
field values (a `str`-enum member dumps as its literal string). -/
def encodeProperty (p : Property) : Yaml :=
  Yaml.dict [("name", Yaml.s p.name), ("data_type", Yaml.s p.data_type),
             ("is_primary", Yaml.b p.is_primary),
             ("is_nullable", yamlOfOptBool p.is_nullable)]

/-- `PropertyGroup.model_dump(mode="python")`. -/
def encodePropertyGroup (g : PropertyGroup) : Yaml :=
  Yaml.dict [("prefix", Yaml.s g.prefix_), ("file_type", Yaml.s g.file_type),
             ("properties", Yaml.seq (g.properties.map encodeProperty))]

/-- `AdjList.model_dump(mode="python")`. -/
def encodeAdjList (a : AdjList) : Yaml :=
  Yaml.dict [("ordered", Yaml.b a.ordered), ("aligned_by", Yaml.s a.aligned_by),
             ("prefix", Yaml.s a.prefix_), ("file_type", Yaml.s a.file_type)]

/-- `VertexInfo.model_dump(mode="python")`. -/
def encodeVertexInfo (v : VertexInfo) : Yaml :=
  Yaml.dict [("label", Yaml.s v.label), ("chunk_size", Yaml.i v.chunk_size),
             ("prefix", Yaml.s v.prefix_),
             ("property_groups", Yaml.seq (v.property_groups.map encodePropertyGroup)),
             ("version", Yaml.s v.version)]

/-- `EdgeInfo.model_dump(mode="python")`. -/
def encodeEdgeInfo (e : EdgeInfo) : Yaml :=
  Yaml.dict [("src_label", Yaml.s e.src_label), ("edge_label", Yaml.s e.edge_label),
             ("dst_label", Yaml.s e.dst_label), ("chunk_size", Yaml.i e.chunk_size),
             ("src_chunk_size", Yaml.i e.src_chunk_size),
             ("dst_chunk_size", Yaml.i e.dst_chunk_size),
             ("directed", Yaml.b e.directed), ("prefix", Yaml.s e.prefix_),
             ("adj_lists", Yaml.seq (e.adj_lists.map encodeAdjList)),
             ("property_groups", Yaml.seq (e.property_groups.map encodePropertyGroup)),
             ("version", Yaml.s e.version)]

/-- `GraphInfo.model_dump(mode="python")`. -/
def encodeGraphInfo (g : GraphInfo) : Yaml :=
  Yaml.dict [("name", Yaml.s g.name), ("prefix", Yaml.s g.prefix_),
             ("vertices", Yaml.seq (g.vertices.map Yaml.s)),
             ("edges", Yaml.seq (g.edges.map Yaml.s)),
             ("version", Yaml.s g.version)]

/-- Valid field values for a `Property`: the enum field holds a member of the
closed `GarType` set. -/
def Property.valid (p : Property) : Bool := isGarType p.data_type

/-- Valid field values for a `PropertyGroup`. -/
def PropertyGroup.valid (g : PropertyGroup) : Bool :=
  isFileType g.file_type && g.properties.all Property.valid

/-- Valid field values for an `AdjList`. -/
def AdjList.valid (a : AdjList) : Bool :=
  isAdjListType a.aligned_by && isFileType a.file_type

/-- Valid field values for a `VertexInfo`. -/
def VertexInfo.valid (v : VertexInfo) : Bool :=
  v.property_groups.all PropertyGroup.valid

/-- Valid field values for an `EdgeInfo`. -/
def EdgeInfo.valid (e : EdgeInfo) : Bool :=
  e.adj_lists.all AdjList.valid && e.property_groups.all PropertyGroup.valid

/-- Splitting a character sequence at every newline, keeping empty segments:
the empty sequence splits to one empty segment, a trailing newline yields a
trailing empty segment. -/
def splitLinesChars : List Char → List (List Char)
  | [] => [[]]
  | c :: t =>
    if c = '\n' then [] :: splitLinesChars t
    else
      match splitLinesChars t with
      | [] => [[c]]
      | h :: r => (c :: h) :: r

/-- Python `text.split("\n")` (helpers.py line 49): split at every newline,
keeping empty segments (`"".split` gives `[""]`, a trailing separator yields
a trailing `""`). -/
def splitLines (text : String) : List String :=
  (splitLinesChars text.toList).map (fun l => String.mk l)

/-- helpers.py line 49, `tuple(v)`: iterating a Python `str` yields its
characters, so the row built for one split line is the tuple of the line's
characters — one column per character. -/
def lineToRow (line : String) : List String := line.toList.map (fun c => String.mk [c])

/-- The rows submitted to `spark.createDataFrame` by `write_yaml_to_any`
(helpers.py lines 49-50): one row per split line, each row built by
`tuple(v)`. -/
def writeRows (raw_text : String) : List (List String) :=
  (splitLines raw_text).map lineToRow

/-- Modelled from the spec: the write path the spec describes — "split `text`
into an ordered sequence of lines. Each line becomes one record with a single
text column", no header record.  One single-text-column record per line. -/
def writeRowsSpec (raw_text : String) : List (List String) :=
  (splitLines raw_text).map (fun l => [l])

/-- One stored record of the text store: `spark.read.text` exposes a single
text column named `value` (helpers.py line 35). -/
structure Row where
  value : String
deriving DecidableEq

/-- The distributed record store (spec section 6), a black box mapping a
location to the records stored there; `none` when no records exist at the
location. -/
abbrev Store := String → Option (List Row)

/-- The store with no records at any location. -/
def emptyStore : Store := fun _ => none

/-- `write_records(location, records, mode=overwrite)` (helpers.py line 51,
`.mode("overwrite")`): the records previously at `location` are fully
replaced by the new ones. -/
def Store.write (st : Store) (location : String) (recs : List Row) : Store :=
  fun l => if l = location then some recs else st l

/-- Modelled from the spec: the consumed store interface accepts a "sequence
of {text}" records — the Spark `text` data source (helpers.py line 51) writes
exactly one text column per record, and a row of any other shape makes the
write raise, here `none`. -/
def toTextRecords : List (List String) → Option (List Row)
  | [] => some []
  | [v] :: t => (toTextRecords t).map (fun rest => Row.mk v :: rest)
  | _ => none

/-- `write_yaml_to_any` (helpers.py 40-51) over the store: dump the model's
field mapping to YAML text (`safe_dump` is the text serializer, kept
abstract), split the text into lines, build one row per line by `tuple(v)`,
and save in `text` format with `mode("overwrite")`.  `none` means the write
raised because the rows are not single-text-column records. -/
def write_yaml_to_any (safe_dump : Yaml → String) (encode : α → Yaml)
    (st : Store) (location : String) (model : α) : Option Store :=
  match toTextRecords (writeRows (safe_dump (encode model))) with
  | some recs => some (st.write location recs)
  | none => none

/-- The newline join of the `value` column of all fetched rows (helpers.py
line 35: `"\n".join(row["value"] for row in spark_text.collect())`). -/
def collectText (rows : List Row) : String :=
  String.intercalate "\n" (rows.map Row.value)

/-- `read_yaml_from_any` (helpers.py 26-37) over the store: `spark.read.text`
on a location with no records raises (the spec's `NotFoundError`); otherwise
all records are fetched, the single text column of each is extracted and
joined with newlines into one document, which is then parsed (`safe_load`,
the text parser kept abstract) and validated (`model.validate`). -/
def read_yaml_from_any (safe_load : String → Except SchemaErr Yaml)
    (validate : Yaml → Except SchemaErr α) (st : Store) (location : String) :
    Except SchemaErr α :=
  match st location with
  | none => Except.error SchemaErr.notFoundError
  | some rows => Except.bind (safe_load (collectText rows)) validate

/-- The spec section 8 example model: GraphInfo{name:"social",
prefix:"graph/", vertices:["person"], edges:["knows"], version:"v1"}. -/
def graphExample : GraphInfo :=
  { name := "social", prefix_ := "graph/", vertices := ["person"],
    edges := ["knows"], version := "v1" }

/-- The `yaml.safe_dump` text of `graphExample`'s field mapping (keys sorted,
block style, terminating newline), reproduced as a concrete document.  Its
exact shape is not load-bearing: any line whose length is not one already
defeats the `tuple(v)` row construction, as does the trailing empty line. -/
def graphExampleDump : String :=
  "edges:\n- knows\nname: social\nprefix: graph/\nversion: v1\nvertices:\n- person\n"

/-- A second model written to the same location. -/
def graphExample2 : GraphInfo := { name := "g2" }

/-- The `yaml.safe_dump` text of `graphExample2`'s field mapping. -/
def graphExample2Dump : String :=
  "edges: []\nname: g2\nprefix: ''\nversion: ''\nvertices: []\n"

/-! ### Reduction lemmas for the `Except` monad and the field decoders -/

@[simp] theorem ok_bind {α β : Type} {a : α} {f : α → Except SchemaErr β} :
    (Except.ok a : Except SchemaErr α) >>= f = f a := rfl

@[simp] theorem error_bind {α β : Type} {e : SchemaErr} {f : α → Except SchemaErr β} :
    (Except.error e : Except SchemaErr α) >>= f = Except.error e := rfl

theorem bind_eq_ok {α β : Type} {x : Except SchemaErr α} {f : α → Except SchemaErr β}
    {b : β} (h : x >>= f = Except.ok b) :
    ∃ a, x = Except.ok a ∧ f a = Except.ok b := by
  cases x with
  | ok a => exact ⟨a, rfl, h⟩
  | error e => simp at h

/-- A `str` field decode either succeeds or fails with the validation error. -/
theorem decodeStrField_cases (o : Option Yaml) (d : String) :
    (∃ v, decodeStrField o d = Except.ok v) ∨
      decodeStrField o d = Except.error SchemaErr.schemaValidationError := by
  cases o with
  | none => exact Or.inl ⟨d, rfl⟩
  | some y => cases y <;> simp [decodeStrField]

/-- A `bool` field decode either succeeds or fails with the validation error. -/
theorem decodeBoolField_cases (o : Option Yaml) (d : Bool) :
    (∃ v, decodeBoolField o d = Except.ok v) ∨
      decodeBoolField o d = Except.error SchemaErr.schemaValidationError := by
  cases o with
  | none => exact Or.inl ⟨d, rfl⟩
  | some y => cases y <;> simp [decodeBoolField]

/-- A present enum field only decodes to a member of the closed literal set. -/
theorem decodeEnumField_ok {vals : List String} {y : Yaml} {d s : String}
    (h : decodeEnumField vals (some y) d = Except.ok s) : vals.contains s = true := by
  cases y with
  | s w =>
      by_cases hw : w ∈ vals
      · have hc : vals.contains w = true := by simpa using hw
        simp [decodeEnumField, hw] at h
        exact h ▸ hc
      · simp [decodeEnumField, hw] at h
  | i v => simp [decodeEnumField] at h
  | b v => simp [decodeEnumField] at h
  | null => simp [decodeEnumField] at h
  | seq l => simp [decodeEnumField] at h
  | dict m => simp [decodeEnumField] at h

/-- Decoding the dump of a tri-state `Optional[bool]` restores it exactly:
unset (`None`, dumped as YAML null) stays unset, explicit booleans stay. -/
theorem decodeOptBool_encode (o d : Option Bool) :
    decodeOptBoolField (some (yamlOfOptBool o)) d = Except.ok o := by
  cases o <;> rfl

/-! ### Value-level codec round-trips -/

/-- `Property` round-trip at the YAML value level. -/
theorem prop_roundtrip (p : Property) (h : Property.valid p = true) :
    decodeProperty (encodeProperty p) = Except.ok p := by
  rw [Property.valid, isGarType] at h
  have h2 : p.data_type ∈ garTypeValues := by simpa using h
  simp [decodeProperty, encodeProperty, lookupField, decodeStrField, decodeEnumField,
        decodeBoolField, decodeOptBool_encode, h2]

/-- Element-wise round-trip of a `list[Property]` field, in order. -/
theorem decodeAll_encodeProperty (l : List Property) (h : l.all Property.valid = true) :
    decodeAll decodeProperty (l.map encodeProperty) = Except.ok l := by
  induction l with
  | nil => rfl
  | cons p t ih =>
      rw [List.all_cons, Bool.and_eq_true] at h
      simp [decodeAll, prop_roundtrip p h.1, ih h.2]

/-- `PropertyGroup` round-trip at the YAML value level. -/
theorem group_roundtrip (g : PropertyGroup) (h : PropertyGroup.valid g = true) :
    decodePropertyGroup (encodePropertyGroup g) = Except.ok g := by
  rw [PropertyGroup.valid, Bool.and_eq_true] at h
  have h2 : g.file_type ∈ fileTypeValues := by simpa [isFileType] using h.1
  simp [decodePropertyGroup, encodePropertyGroup, lookupField, decodeStrField,
        decodeEnumField, decodeListField, decodeAll_encodeProperty _ h.2, h2]

/-- Element-wise round-trip of a `list[PropertyGroup]` field, in order. -/
theorem decodeAll_encodePropertyGroup (l : List PropertyGroup)
    (h : l.all PropertyGroup.valid = true) :
    decodeAll decodePropertyGroup (l.map encodePropertyGroup) = Except.ok l := by
  induction l with
  | nil => rfl
  | cons g t ih =>
      rw [List.all_cons, Bool.and_eq_true] at h
      simp [decodeAll, group_roundtrip g h.1, ih h.2]

/-- `AdjList` round-trip at the YAML value level. -/
theorem adj_roundtrip (a : AdjList) (h : AdjList.valid a = true) :
    decodeAdjList (encodeAdjList a) = Except.ok a := by
  rw [AdjList.valid, Bool.and_eq_true] at h
  have h1 : a.aligned_by ∈ adjListTypeValues := by simpa [isAdjListType] using h.1
  have h2 : a.file_type ∈ fileTypeValues := by simpa [isFileType] using h.2
  simp [decodeAdjList, encodeAdjList, lookupField, decodeStrField, decodeEnumField,
        decodeBoolField, h1, h2]

/-- Element-wise round-trip of a `list[AdjList]` field, in order. -/
theorem decodeAll_encodeAdjList (l : List AdjList) (h : l.all AdjList.valid = true) :
    decodeAll decodeAdjList (l.map encodeAdjList) = Except.ok l := by
  induction l with
  | nil => rfl
  | cons a t ih =>
      rw [List.all_cons, Bool.and_eq_true] at h
      simp [decodeAll, adj_roundtrip a h.1, ih h.2]

/-- Element-wise round-trip of a `list[str]` field, in order. -/
theorem decodeAll_strItem (l : List String) :
    decodeAll decodeStrItem (l.map Yaml.s) = Except.ok l := by
  induction l with
  | nil => rfl
  | cons v t ih => simp [decodeAll, decodeStrItem, ih]

/-- `VertexInfo` round-trip at the YAML value level. -/
theorem vertex_roundtrip (v : VertexInfo) (h : VertexInfo.valid v = true) :
    decodeVertexInfo (encodeVertexInfo v) = Except.ok v := by
  rw [VertexInfo.valid] at h
  simp [decodeVertexInfo, encodeVertexInfo, lookupField, decodeStrField, decodeIntField,
        decodeListField, decodeAll_encodePropertyGroup _ h]

/-- `EdgeInfo` round-trip at the YAML value level. -/
theorem edge_roundtrip (e : EdgeInfo) (h : EdgeInfo.valid e = true) :
    decodeEdgeInfo (encodeEdgeInfo e) = Except.ok e := by
  rw [EdgeInfo.valid, Bool.and_eq_true] at h
  simp [decodeEdgeInfo, encodeEdgeInfo, lookupField, decodeStrField, decodeIntField,
        decodeBoolField, decodeListField, decodeAll_encodeAdjList _ h.1,
        decodeAll_encodePropertyGroup _ h.2]

/-- `GraphInfo` round-trip at the YAML value level (no enum field, so any
instance has valid field values). -/
theorem graph_roundtrip (g : GraphInfo) :
    decodeGraphInfo (encodeGraphInfo g) = Except.ok g := by
  simp [decodeGraphInfo, encodeGraphInfo, lookupField, decodeStrField,
        decodeListField, decodeAll_strItem]

/-! ### Concrete instances used by the witnesses -/

/-- A `Property` with valid field values (tri-state `is_nullable` explicit). -/
def propEx : Property :=
  { name := "id", data_type := "int64", is_primary := true, is_nullable := some false }

/-- A `VertexInfo` with valid field values and a nested property group. -/
def vertexEx : VertexInfo :=
  { label := "person", chunk_size := 100, prefix_ := "vertex/person/",
    property_groups :=
      [{ prefix_ := "pg0/", file_type := "parquet",
         properties := [propEx, { name := "age", data_type := "int32" }] }],
    version := "gar/v1" }

/-- An `EdgeInfo` with valid field values, one adjacency list, one group. -/
def edgeEx : EdgeInfo :=
  { src_label := "person", edge_label := "knows", dst_label := "person",
    chunk_size := 1024, src_chunk_size := 100, dst_chunk_size := 100,
    directed := false, prefix_ := "edge/person_knows_person/",
    adj_lists :=
      [{ ordered := true, aligned_by := "ordered_by_source", prefix_ := "adj/",
         file_type := "csv" }],
    property_groups := [], version := "gar/v1" }

/-- A store holding two single-text-column records at one location. -/
def storeEx : Store :=
  fun l => if l = "graph.yaml" then some [Row.mk "name: social", Row.mk "version: v1"]
           else none

/-! ### The claims -/

/-- C1: the claim says the write path splits the document into its lines and
persists each line as exactly one record with a single text column, no header
record.  The code (helpers.py line 49, `tuple(v)`) instead turns each line
into the tuple of its characters — one column per character.  On the one-line
document "id: 1" the spec-described record sequence is one single-column
record, while the code builds a five-column record; the two disagree. -/
theorem claim1_write_tuple_of_chars :
    writeRowsSpec "id: 1" = [["id: 1"]]
  ∧ writeRows "id: 1" = [["i", "d", ":", " ", "1"]]
  ∧ writeRows "id: 1" ≠ writeRowsSpec "id: 1"
  ∧ writeRows graphExampleDump ≠ writeRowsSpec graphExampleDump := by decide

/-- C2: the claim says writing a model and reading it back on an
order-preserving store returns an equal model.  On the code, the write never
reaches the store: every line of the dumped YAML becomes a tuple of its
characters (and the trailing empty line an empty tuple), which the
single-text-column text writer rejects, so `to_yaml` raises for the spec's
own example model and nothing can be read back. -/
theorem claim2_store_roundtrip_write_raises :
    write_yaml_to_any (fun _ => graphExampleDump) encodeGraphInfo emptyStore
      "graph.yaml" graphExample = none := rfl

/-- C3: decoding the encoding of a model with valid field values returns an
equal model, field for field: the tri-state `is_nullable` (unset vs explicit
true vs explicit false) survives, and ordered sequence fields keep their
order (equality of the whole list).  The YAML text layer is abstracted by a
serializer `sd` and parser `sl`; whenever the parser returns the dumped
mapping itself (as `yaml.safe_load` does on `yaml.safe_dump` output for these
plain mappings), validation reconstructs the original model. -/
theorem claim3_codec_roundtrip (sd : Yaml → String)
    (sl : String → Except SchemaErr Yaml) :
    (∀ p : Property, Property.valid p = true →
        sl (sd (encodeProperty p)) = Except.ok (encodeProperty p) →
        Except.bind (sl (sd (encodeProperty p))) decodeProperty = Except.ok p)
  ∧ (∀ v : VertexInfo, VertexInfo.valid v = true →
        sl (sd (encodeVertexInfo v)) = Except.ok (encodeVertexInfo v) →
        Except.bind (sl (sd (encodeVertexInfo v))) decodeVertexInfo = Except.ok v)
  ∧ (∀ e : EdgeInfo, EdgeInfo.valid e = true →
        sl (sd (encodeEdgeInfo e)) = Except.ok (encodeEdgeInfo e) →
        Except.bind (sl (sd (encodeEdgeInfo e))) decodeEdgeInfo = Except.ok e)
  ∧ (∀ g : GraphInfo,
        sl (sd (encodeGraphInfo g)) = Except.ok (encodeGraphInfo g) →
        Except.bind (sl (sd (encodeGraphInfo g))) decodeGraphInfo = Except.ok g) := by
  refine ⟨fun p hv hl => ?_, fun v hv hl => ?_, fun e hv hl => ?_, fun g hl => ?_⟩ <;>
    rw [hl]
  · exact prop_roundtrip p hv
  · exact vertex_roundtrip v hv
  · exact edge_roundtrip e hv
  · exact graph_roundtrip g

/-- C3 witness: the round-trip at concrete models of every serializable type,
with the parser stub returning the dumped mapping. -/
theorem claim3_codec_roundtrip_witness :
    Except.bind (Except.ok (encodeProperty propEx) : Except SchemaErr Yaml)
      decodeProperty = Except.ok propEx
  ∧ Except.bind (Except.ok (encodeVertexInfo vertexEx) : Except SchemaErr Yaml)
      decodeVertexInfo = Except.ok vertexEx
  ∧ Except.bind (Except.ok (encodeEdgeInfo edgeEx) : Except SchemaErr Yaml)
      decodeEdgeInfo = Except.ok edgeEx
  ∧ Except.bind (Except.ok (encodeGraphInfo graphExample) : Except SchemaErr Yaml)
      decodeGraphInfo = Except.ok graphExample := by
  refine ⟨?_, ?_, ?_, ?_⟩
  · exact (claim3_codec_roundtrip (fun _ => "")
      (fun _ => Except.ok (encodeProperty propEx))).1 propEx (by decide) rfl
  · exact (claim3_codec_roundtrip (fun _ => "")
      (fun _ => Except.ok (encodeVertexInfo vertexEx))).2.1 vertexEx (by decide) rfl
  · exact (claim3_codec_roundtrip (fun _ => "")
      (fun _ => Except.ok (encodeEdgeInfo edgeEx))).2.2.1 edgeEx (by decide) rfl
  · exact (claim3_codec_roundtrip (fun _ => "")
      (fun _ => Except.ok (encodeGraphInfo graphExample))).2.2.2 graphExample rfl

/-- C4: when records exist at the location, the read path fetches them all,
extracts the single text column of each and joins them with newline
separators into one document, and only then parses and validates — the
result is exactly decoding applied to that one joined document. -/
theorem claim4_read_joins_then_decodes {α : Type}
    (safe_load : String → Except SchemaErr Yaml)
    (validate : Yaml → Except SchemaErr α) (st : Store) (location : String)
    (rows : List Row) (h : st location = some rows) :
    read_yaml_from_any safe_load validate st location
      = Except.bind (safe_load (String.intercalate "\n" (rows.map Row.value)))
          validate := by
  unfold read_yaml_from_any
  rw [h]
  rfl

/-- C4 witness: a concrete store with two records at "graph.yaml". -/
theorem claim4_read_joins_then_decodes_witness :
    read_yaml_from_any (fun _ => Except.ok (Yaml.dict [])) decodeGraphInfo storeEx
        "graph.yaml"
      = Except.bind (Except.ok (Yaml.dict []) : Except SchemaErr Yaml)
          decodeGraphInfo :=
  claim4_read_joins_then_decodes (fun _ => Except.ok (Yaml.dict [])) decodeGraphInfo
    storeEx "graph.yaml" [Row.mk "name: social", Row.mk "version: v1"] (by decide)

/-- C5: the claim says writing `m1` then `m2` to one location fully replaces
the earlier records so a read returns `m2`.  The overwrite mode itself does
fully replace at the store level (first conjunct), but on the code neither
write ever reaches the store: the `tuple(v)` rows of both models' YAML dumps
are rejected by the single-text-column writer, both writes raise, and the
subsequent read finds no records at the location instead of `m2`. -/
theorem claim5_overwrite_never_reached :
    (Store.write (Store.write emptyStore "graph.yaml" [Row.mk "a"]) "graph.yaml"
        [Row.mk "b"]) "graph.yaml" = some [Row.mk "b"]
  ∧ write_yaml_to_any (fun _ => graphExampleDump) encodeGraphInfo emptyStore
      "graph.yaml" graphExample = none
  ∧ write_yaml_to_any (fun _ => graphExample2Dump) encodeGraphInfo emptyStore
      "graph.yaml" graphExample2 = none
  ∧ read_yaml_from_any (fun _ => Except.ok (Yaml.dict [])) decodeGraphInfo
      emptyStore "graph.yaml" = Except.error SchemaErr.notFoundError := by
  exact ⟨by decide, rfl, rfl, rfl⟩

/-- C6: a document whose enumeration field carries a value outside the closed
literal set is rejected with the schema validation error, for each of the
three enums: `GarType` (`data_type` of `Property`), `FileType` (`file_type`
of `PropertyGroup`) and `AdjListType` (`aligned_by` of `AdjList`).  No model
instance is produced. -/
theorem claim6_enum_rejection :
    (∀ (m : List (String × Yaml)) (v : String),
        lookupField m "data_type" = some (Yaml.s v) → isGarType v = false →
        decodeProperty (Yaml.dict m) = Except.error SchemaErr.schemaValidationError)
  ∧ (∀ (m : List (String × Yaml)) (v : String),
        lookupField m "file_type" = some (Yaml.s v) → isFileType v = false →
        decodePropertyGroup (Yaml.dict m)
          = Except.error SchemaErr.schemaValidationError)
  ∧ (∀ (m : List (String × Yaml)) (v : String),
        lookupField m "aligned_by" = some (Yaml.s v) → isAdjListType v = false →
        decodeAdjList (Yaml.dict m) = Except.error SchemaErr.schemaValidationError) := by
  refine ⟨fun m v h1 h2 => ?_, fun m v h1 h2 => ?_, fun m v h1 h2 => ?_⟩
  · have h3 : v ∉ garTypeValues := by simpa [isGarType] using h2
    rcases decodeStrField_cases (lookupField m "name") "" with ⟨w, hw⟩ | hw <;>
      simp [decodeProperty, hw, h1, decodeEnumField, h3]
  · have h3 : v ∉ fileTypeValues := by simpa [isFileType] using h2
    rcases decodeStrField_cases (lookupField m "prefix") "" with ⟨w, hw⟩ | hw <;>
      simp [decodePropertyGroup, hw, h1, decodeEnumField, h3]
  · have h3 : v ∉ adjListTypeValues := by simpa [isAdjListType] using h2
    rcases decodeBoolField_cases (lookupField m "ordered") false with ⟨w, hw⟩ | hw <;>
      simp [decodeAdjList, hw, h1, decodeEnumField, h3]

/-- C6 witness: the three enums each reject a concrete out-of-set literal. -/
theorem claim6_enum_rejection_witness :
    decodeProperty (Yaml.dict [("data_type", Yaml.s "invalid")])
      = Except.error SchemaErr.schemaValidationError
  ∧ decodePropertyGroup (Yaml.dict [("file_type", Yaml.s "text")])
      = Except.error SchemaErr.schemaValidationError
  ∧ decodeAdjList (Yaml.dict [("aligned_by", Yaml.s "diagonal")])
      = Except.error SchemaErr.schemaValidationError := by
  refine ⟨claim6_enum_rejection.1 _ "invalid" rfl (by decide),
          claim6_enum_rejection.2.1 _ "text" rfl (by decide),
          claim6_enum_rejection.2.2 _ "diagonal" rfl (by decide)⟩

/-- C7 counterexample: decoding a `VertexInfo` document whose `chunk_size` is
the negative integer -5 succeeds, producing an accepted instance with a
negative chunk size — no validation rejects it, contrary to the claim. -/
theorem claim7_negative_chunk_counterexample :
    decodeVertexInfo (Yaml.dict [("chunk_size", Yaml.i (-5))])
      = Except.ok { chunk_size := -5 }
  ∧ ({ chunk_size := -5 } : VertexInfo).chunk_size < 0 := by decide

/-- C7 amended: the chunk-size fields of `VertexInfo` and `EdgeInfo` are
plain `int` fields with no sign constraint — decoding accepts every integer,
negative ones included, and the decoded instance carries it verbatim. -/
theorem claim7_chunk_size_unconstrained :
    (∀ n : Int, decodeVertexInfo (Yaml.dict [("chunk_size", Yaml.i n)])
        = Except.ok { chunk_size := n })
  ∧ (∀ a b c : Int,
        decodeEdgeInfo (Yaml.dict [("chunk_size", Yaml.i a),
          ("src_chunk_size", Yaml.i b), ("dst_chunk_size", Yaml.i c)])
        = Except.ok { chunk_size := a, src_chunk_size := b, dst_chunk_size := c }) := by
  constructor
  · intro n
    simp [decodeVertexInfo, lookupField, decodeStrField, decodeIntField,
          decodeListField, decodeAll]
  · intro a b c
    simp [decodeEdgeInfo, lookupField, decodeStrField, decodeIntField,
          decodeBoolField, decodeListField, decodeAll]

/-- C8: reading from a location with no records fails with the not-found
error, which is a different error than the parse error and the schema
validation error. -/
theorem claim8_missing_location_not_found {α : Type}
    (safe_load : String → Except SchemaErr Yaml)
    (validate : Yaml → Except SchemaErr α) (st : Store) (location : String)
    (h : st location = none) :
    read_yaml_from_any safe_load validate st location
      = Except.error SchemaErr.notFoundError
  ∧ SchemaErr.notFoundError ≠ SchemaErr.parseError
  ∧ SchemaErr.notFoundError ≠ SchemaErr.schemaValidationError := by
  refine ⟨?_, by decide, by decide⟩
  unfold read_yaml_from_any
  rw [h]

/-- C8 witness: the empty store at a concrete location. -/
theorem claim8_missing_location_not_found_witness :
    read_yaml_from_any (fun _ => Except.ok (Yaml.dict [])) decodeGraphInfo emptyStore
        "missing.yaml"
      = Except.error SchemaErr.notFoundError
  ∧ SchemaErr.notFoundError ≠ SchemaErr.parseError
  ∧ SchemaErr.notFoundError ≠ SchemaErr.schemaValidationError :=
  claim8_missing_location_not_found (fun _ => Except.ok (Yaml.dict []))
    decodeGraphInfo emptyStore "missing.yaml" rfl

/-- C9: decoding the empty document into each top-level type succeeds with
every field at its declared default, and for any document without a
`version` key the decoded `version` is the empty string. -/
theorem claim9_default_fill :
    (decodeGraphInfo (Yaml.dict []) = Except.ok {}
      ∧ decodeVertexInfo (Yaml.dict []) = Except.ok {}
      ∧ decodeEdgeInfo (Yaml.dict []) = Except.ok {})
  ∧ (∀ (m : List (String × Yaml)) (g : GraphInfo),
        lookupField m "version" = none → decodeGraphInfo (Yaml.dict m) = Except.ok g →
        g.version = "") := by
  refine ⟨⟨by decide, by decide, by decide⟩, fun m g hv hok => ?_⟩
  simp only [decodeGraphInfo] at hok
  obtain ⟨n, hn, hok⟩ := bind_eq_ok hok
  obtain ⟨p, hp, hok⟩ := bind_eq_ok hok
  obtain ⟨vs, hvs, hok⟩ := bind_eq_ok hok
  obtain ⟨es, hes, hok⟩ := bind_eq_ok hok
  obtain ⟨ver, hver, hok⟩ := bind_eq_ok hok
  rw [hv] at hver
  simp only [decodeStrField, Except.ok.injEq] at hver
  simp only [Except.ok.injEq] at hok
  subst hok
  exact hver.symm

/-- C9 witness: a document carrying only `name` decodes with `version` "". -/
theorem claim9_default_fill_witness :
    ({ name := "g" } : GraphInfo).version = "" :=
  claim9_default_fill.2 [("name", Yaml.s "g")] { name := "g" } rfl (by decide)

/-- C10 counterexample to the claim's "the membership invariant holds for
decoded instances": decoding the empty document produces an instance whose
`data_type` is the unvalidated default "", outside the `GarType` set. -/
theorem claim10_decoded_default_counterexample :
    decodeProperty (Yaml.dict []) = Except.ok ({} : Property)
  ∧ isGarType (({} : Property).data_type) = false := by decide

/-- C10 amended: the default-constructed `Property` has `data_type` "", not
one of the seven `GarType` literals, because field defaults are not
validated; the membership invariant therefore holds only for instances whose
document supplies the `data_type` key — a decode that falls back to the
default (document without the key) also escapes validation. -/
theorem claim10_default_unvalidated :
    (({} : Property).data_type = "" ∧ isGarType "" = false)
  ∧ (∀ (m : List (String × Yaml)) (y : Yaml) (p : Property),
        lookupField m "data_type" = some y →
        decodeProperty (Yaml.dict m) = Except.ok p →
        isGarType p.data_type = true) := by
  refine ⟨⟨rfl, by decide⟩, fun m y p h1 hok => ?_⟩
  simp only [decodeProperty] at hok
  obtain ⟨n, hn, hok⟩ := bind_eq_ok hok
  obtain ⟨dt, hdt, hok⟩ := bind_eq_ok hok
  obtain ⟨pr, hpr, hok⟩ := bind_eq_ok hok
  obtain ⟨nl, hnl, hok⟩ := bind_eq_ok hok
  rw [h1] at hdt
  have hc := decodeEnumField_ok hdt
  simp only [Except.ok.injEq] at hok
  subst hok
  simpa [isGarType] using hc

/-- C10 witness: a document that supplies `data_type` decodes to a member of
the closed set. -/
theorem claim10_default_unvalidated_witness :
    isGarType (({ data_type := "int64" } : Property).data_type) = true :=
  claim10_default_unvalidated.2 [("data_type", Yaml.s "int64")] (Yaml.s "int64")
    { data_type := "int64" } rfl (by decide)

end GraphArV2
